import Mathlib

/-!
Verification development for the holly-fish-tts repository.

The repository exposes several text-to-speech backends (a local-model
template `holly_fish_voice.py`, the real local-model implementation
`holly_fish_voice_v2.py`, the cloud backend `holly_fish_voice_cloud.py`,
the free-web backend `holly_gtts_voice.py`, and the self-hosted binary
backend `holly_piper_voice.py`).  Each backend wraps an external synthesis
call with an on-disk audio cache keyed by an MD5 digest.

This file gives a shallow embedding of the parts of those modules that the
specification claims are about:

* the MD5 digest itself (`MD5` namespace) together with the UTF-8 encoding
  of the Python strings, so that the cache-key functions are embedded
  exactly as in the source;
* the cache store (load / save / stats / clear) with 16-bit PCM
  quantization in place of the WAV codec used by `soundfile`;
* the `generate` wrappers of the individual backends, with the external
  synthesis call (HTTP request, subprocess, inference engine) represented
  by an explicit outcome value, and Python exceptions represented by
  `Except`;
* the IEEE-754 double-precision rounding that the CPython expressions
  `int(sample_rate * (len(text) / chars_per_sec))` actually perform when
  they size the silent fallback buffers.
-/

/-- UTF-8 encoding of a single character as a list of byte values,
mirroring Python's `str.encode('utf-8')` for each code point. -/
def utf8EncodeCharNat (c : Char) : List Nat :=
  let n := c.toNat
  if n < 128 then [n]
  else if n < 2048 then [192 + n / 64, 128 + n % 64]
  else if n < 65536 then [224 + n / 4096, 128 + n / 64 % 64, 128 + n % 64]
  else [240 + n / 262144, 128 + n / 4096 % 64, 128 + n / 64 % 64, 128 + n % 64]

/-- The UTF-8 byte sequence of a string, as `text.encode('utf-8')` produces. -/
def strBytes (s : String) : List Nat :=
  (s.data.map utf8EncodeCharNat).flatten

namespace MD5

/-- Reduce a natural number to a 32-bit word. -/
def w32 (n : Nat) : Nat := n % 4294967296

/-- Bitwise complement on 32 bits. -/
def cpl (n : Nat) : Nat := 4294967295 - w32 n

/-- Left rotation of a 32-bit word by `s` places (`0 < s < 32`). -/
def rotl (x s : Nat) : Nat :=
  w32 ((x % 4294967296) <<< s) + (x % 4294967296) >>> (32 - s)

/-- The 64 sine-derived round constants of MD5. -/
def kTable : List Nat :=
  [0xd76aa478, 0xe8c7b756, 0x242070db, 0xc1bdceee,
   0xf57c0faf, 0x4787c62a, 0xa8304613, 0xfd469501,
   0x698098d8, 0x8b44f7af, 0xffff5bb1, 0x895cd7be,
   0x6b901122, 0xfd987193, 0xa679438e, 0x49b40821,
   0xf61e2562, 0xc040b340, 0x265e5a51, 0xe9b6c7aa,
   0xd62f105d, 0x02441453, 0xd8a1e681, 0xe7d3fbc8,
   0x21e1cde6, 0xc33707d6, 0xf4d50d87, 0x455a14ed,
   0xa9e3e905, 0xfcefa3f8, 0x676f02d9, 0x8d2a4c8a,
   0xfffa3942, 0x8771f681, 0x6d9d6122, 0xfde5380c,
   0xa4beea44, 0x4bdecfa9, 0xf6bb4b60, 0xbebfbc70,
   0x289b7ec6, 0xeaa127fa, 0xd4ef3085, 0x04881d05,
   0xd9d4d039, 0xe6db99e5, 0x1fa27cf8, 0xc4ac5665,
   0xf4292244, 0x432aff97, 0xab9423a7, 0xfc93a039,
   0x655b59c3, 0x8f0ccc92, 0xffeff47d, 0x85845dd1,
   0x6fa87e4f, 0xfe2ce6e0, 0xa3014314, 0x4e0811a1,
   0xf7537e82, 0xbd3af235, 0x2ad7d2bb, 0xeb86d391]

/-- The per-round left-rotation amounts of MD5. -/
def sTable : List Nat :=
  [7, 12, 17, 22, 7, 12, 17, 22, 7, 12, 17, 22, 7, 12, 17, 22,
   5, 9, 14, 20, 5, 9, 14, 20, 5, 9, 14, 20, 5, 9, 14, 20,
   4, 11, 16, 23, 4, 11, 16, 23, 4, 11, 16, 23, 4, 11, 16, 23,
   6, 10, 15, 21, 6, 10, 15, 21, 6, 10, 15, 21, 6, 10, 15, 21]

/-- One of the 64 MD5 rounds, acting on the state `(a, b, c, d)` with the
message words `m` of the current chunk. -/
def mixStep (m : List Nat) (st : Nat × Nat × Nat × Nat) (i : Nat) :
    Nat × Nat × Nat × Nat :=
  let a := st.1
  let b := st.2.1
  let c := st.2.2.1
  let d := st.2.2.2
  let f :=
    if i < 16 then Nat.lor (Nat.land b c) (Nat.land (cpl b) d)
    else if i < 32 then Nat.lor (Nat.land d b) (Nat.land (cpl d) c)
    else if i < 48 then Nat.xor b (Nat.xor c d)
    else Nat.xor c (Nat.lor b (cpl d))
  let g :=
    if i < 16 then i
    else if i < 32 then (5 * i + 1) % 16
    else if i < 48 then (3 * i + 5) % 16
    else (7 * i) % 16
  let sum := w32 (a + f + kTable.getD i 0 + m.getD g 0)
  (d, w32 (b + rotl sum (sTable.getD i 0)), b, c)

/-- Group a 64-byte chunk into 16 little-endian 32-bit words. -/
def chunkWords : List Nat → List Nat
  | b0 :: b1 :: b2 :: b3 :: rest =>
      (b0 + 256 * b1 + 65536 * b2 + 16777216 * b3) :: chunkWords rest
  | _ => []

/-- Process one 64-byte chunk: run the 64 rounds and add the result to the
incoming state. -/
def processChunk (st : Nat × Nat × Nat × Nat) (chunk : List Nat) :
    Nat × Nat × Nat × Nat :=
  let m := chunkWords chunk
  let r := (List.range 64).foldl (mixStep m) st
  (w32 (st.1 + r.1), w32 (st.2.1 + r.2.1), w32 (st.2.2.1 + r.2.2.1),
   w32 (st.2.2.2 + r.2.2.2))

/-- A 32-bit word as four little-endian bytes. -/
def leBytes4 (n : Nat) : List Nat :=
  [n % 256, n / 256 % 256, n / 65536 % 256, n / 16777216 % 256]

/-- A 64-bit word as eight little-endian bytes. -/
def leBytes8 (n : Nat) : List Nat :=
  leBytes4 (n % 4294967296) ++ leBytes4 (n / 4294967296)

/-- MD5 padding: append `0x80`, zero bytes up to 56 mod 64, and the
original length in bits as a little-endian 64-bit value. -/
def padded (msg : List Nat) : List Nat :=
  msg ++ 128 :: (List.replicate ((119 - msg.length % 64) % 64) 0
    ++ leBytes8 (8 * msg.length))

/-- Fold `processChunk` over the 64-byte chunks of the padded message;
the fuel argument makes the recursion structural. -/
def chunksLoop : Nat → (Nat × Nat × Nat × Nat) → List Nat →
    Nat × Nat × Nat × Nat
  | _, st, [] => st
  | 0, st, _ => st
  | fuel + 1, st, rest => chunksLoop fuel (processChunk st (rest.take 64)) (rest.drop 64)

/-- The 16-byte MD5 digest of a byte sequence. -/
def digestBytes (msg : List Nat) : List Nat :=
  let p := padded msg
  let st := chunksLoop p.length (1732584193, 4023233417, 2562383102, 271733878) p
  leBytes4 st.1 ++ leBytes4 st.2.1 ++ leBytes4 st.2.2.1 ++ leBytes4 st.2.2.2

/-- A nibble as a lowercase hexadecimal character. -/
def hexChar (n : Nat) : Char := "0123456789abcdef".data.getD n '0'

/-- A byte as two lowercase hexadecimal characters. -/
def byteToHex (b : Nat) : List Char := [hexChar (b / 16), hexChar (b % 16)]

/-- The lowercase hexadecimal MD5 digest, as Python's
`hashlib.md5(bytes).hexdigest()` returns it. -/
def hexDigest (msg : List Nat) : String :=
  String.mk ((digestBytes msg).map byteToHex).flatten

end MD5

/-- `hashlib.md5(s.encode('utf-8')).hexdigest()` for a Python string `s`. -/
def md5Hex (s : String) : String := MD5.hexDigest (strBytes s)

namespace PyFloat

/-- Fuel-driven floor of the base-2 logarithm, total and kernel-reducible. -/
def log2Fuel : Nat → Nat → Nat
  | 0, _ => 0
  | fuel + 1, n => if 2 ≤ n then log2Fuel fuel (n / 2) + 1 else 0

/-- Round the positive fraction `n / d` to the nearest integer, ties to
even (the IEEE-754 default rounding). -/
def natRoundHalfEven (n d : Nat) : Nat :=
  let q := n / d
  let r := n % d
  if 2 * r < d then q
  else if d < 2 * r then q + 1
  else if q % 2 = 0 then q
  else q + 1

/-- The correctly rounded IEEE-754 binary64 value of the positive fraction
`n / d`, as a mantissa/exponent pair: the value is
`mantissa * 2 ^ exponent` with `2 ^ 52 ≤ mantissa ≤ 2 ^ 53`.  The
quantities in this development are far from both overflow and underflow,
so neither is modelled. -/
def flRatParts (n d : Nat) : Nat × Int :=
  let e : Int := ((log2Fuel 400 (n * 2 ^ 200 / d) : Nat) : Int) - 200 - 52
  let m :=
    if 0 ≤ e then natRoundHalfEven n (d * 2 ^ e.toNat)
    else natRoundHalfEven (n * 2 ^ (-e).toNat) d
  (m, e)

/-- The CPython value `int(rate * (chars / per))` for integers `rate`,
`chars`, `per`: the true division `chars / per` yields a correctly rounded
double, the multiplication by the exactly representable `rate` is again
correctly rounded, and `int` truncates toward zero.  This is how
`int(sample_rate * duration)` sizes the fallback buffers in the source,
and it is not always `rate * chars / per` rounded down exactly. -/
def estBufLen (rate chars per : Nat) : Nat :=
  if chars = 0 then 0
  else
    let p := flRatParts chars per
    let q := flRatParts (rate * p.1) 1
    let e : Int := p.2 + q.2
    if 0 ≤ e then q.1 * 2 ^ e.toNat else q.1 / 2 ^ (-e).toNat

end PyFloat

/-- PCM16 quantization performed by `soundfile.write` when float audio is
written to a `.wav` file (the default WAV subtype is 16-bit PCM): scale by
2^15, round to nearest, clip to the int16 range.  `soundfile.read` scales
back by 2^-15.  Ties are resolved here by `round`; any round-to-nearest
variant satisfies the precision bound proved below. -/
def pcm16Quant (x : ℚ) : ℤ := max (-32768) (min 32767 (round (x * 32768)))

/-- The float sample `soundfile.read` recovers from a stored PCM16 value. -/
def pcm16Dequant (n : ℤ) : ℚ := (n : ℚ) / 32768

/-- A file in the cache directory: either a well-formed WAV file holding
16-bit PCM samples at some rate, or unreadable/corrupt bytes. -/
inductive CacheFile where
  | wav (data : List ℤ) (rate : ℕ)
  | garbage
deriving DecidableEq

/-- The cache directory contents, as a map from cache key to the file
stored under `<key>.wav` (if any). -/
abbrev CacheFS := String → Option CacheFile

/-- `_load_from_cache` (textually identical in `holly_fish_voice.py`,
`holly_fish_voice_cloud.py`, `holly_gtts_voice.py`, `holly_piper_voice.py`):
if the file exists, try `sf.read`; any read failure is swallowed by the
bare `except` and reported as a miss (`None`).  The sample rate `sr` read
from the file is bound and then discarded — only the samples are returned. -/
def load_from_cache (fs : CacheFS) (key : String) : Option (List ℚ) :=
  match fs key with
  | some (.wav data _) => some (data.map pcm16Dequant)
  | some .garbage => none
  | none => none

/-- `_save_to_cache` (textually identical in the same four files): write
the WAV file with `sf.write`; a write failure (modelled by
`writeOk = false`) is caught, logged and swallowed, leaving the cache
directory unchanged. -/
def save_to_cache (writeOk : Bool) (fs : CacheFS) (key : String)
    (audio : List ℚ) (rate : ℕ) : CacheFS :=
  if writeOk then Function.update fs key (some (.wav (audio.map pcm16Quant) rate))
  else fs

namespace HollyFishVoice

/-- `HollyFishVoice._get_cache_key` in `holly_fish_voice.py`:
`hashlib.md5(f"{text}:{voice}".encode('utf-8')).hexdigest()`. -/
def get_cache_key (text : String) (voice : String) : String :=
  md5Hex (text ++ ":" ++ voice)

/-- Result of `HollyFishVoice.generate`: the returned audio and sample
rate, whether the synthesis path ran (`false` on a cache hit), and the
cache directory afterwards. -/
structure GenOut where
  audio : List ℚ
  rate : ℕ
  synthesized : Bool
  fs : CacheFS

/-- `HollyFishVoice.generate` in `holly_fish_voice.py`: on a cache hit the
cached samples are returned with the hard-coded rate 24000; otherwise the
placeholder synthesis produces `int(24000 * (len(text) / 20))` zero
samples at 24000 Hz, caches them when `use_cache`, and returns them.
Nothing in the `try` block can raise, so `generate` is total. -/
def generate (writeOk : Bool) (fs : CacheFS) (text voice : String)
    (use_cache : Bool) : GenOut :=
  let key := get_cache_key text voice
  let cached := if use_cache then load_from_cache fs key else none
  match cached with
  | some audio => ⟨audio, 24000, false, fs⟩
  | none =>
      let audio : List ℚ := List.replicate (PyFloat.estBufLen 24000 text.length 20) 0
      let fs2 := if use_cache then save_to_cache writeOk fs key audio 24000 else fs
      ⟨audio, 24000, true, fs2⟩

/-- The cache directory as a listing of regular files (name, size in
bytes).  The code never creates subdirectories under the cache directory. -/
abbrev DirListing := List (String × ℕ)

/-- The test `fnmatch(name, "*.wav")` that `CACHE_DIR.glob("*.wav")`
applies to a directory entry: a case-sensitive suffix match (a leading dot
does not exempt a name), here on the character list of the name. -/
def wav_name (name : String) : Bool := ".wav".data.isSuffixOf name.data

/-- `CACHE_DIR.glob("*.wav")`: the entries whose name matches `*.wav`. -/
def glob_wav (d : DirListing) : DirListing :=
  d.filter (fun f => wav_name f.1)

/-- `HollyFishVoice.get_cache_stats`: the number of `*.wav` files and
their total size in bytes (the source additionally reports the byte total
rounded to MiB, which is zero exactly when small). -/
def get_cache_stats (d : DirListing) : ℕ × ℕ :=
  ((glob_wav d).length, ((glob_wav d).map Prod.snd).sum)

/-- `HollyFishVoice.clear_cache`: unlink every `*.wav` file in the cache
directory. -/
def clear_cache (d : DirListing) : DirListing :=
  d.filter (fun f => !wav_name f.1)

end HollyFishVoice

namespace HollyGTTSVoice

/-- `HollyGTTSVoice._get_cache_key` in `holly_gtts_voice.py`: the MD5 of
the text alone — the voice is not part of the digest. -/
def get_cache_key (text : String) : String := md5Hex text

/-- The cache key a call `generate(text, voice, ...)` actually uses:
`generate` accepts a `voice` argument but calls `_get_cache_key(text)`
without it. -/
def request_key (text : String) (_voice : String) : String :=
  get_cache_key text

end HollyGTTSVoice

namespace HollyPiperVoice

/-- `HollyPiperVoice._get_cache_key` in `holly_piper_voice.py`: the MD5 of
the text alone — the voice is not part of the digest. -/
def get_cache_key (text : String) : String := md5Hex text

/-- The cache key a call `generate(text, voice, ...)` actually uses:
`generate` accepts a `voice` argument but calls `_get_cache_key(text)`
without it. -/
def request_key (text : String) (_voice : String) : String :=
  get_cache_key text

/-- Outcome of the `subprocess.run(["piper", ...], timeout=30)` call: the
process completed with some return code (and, when it succeeded, a WAV
file that `sf.read` decodes to samples and a rate), or the timeout fired. -/
inductive PiperOutcome where
  | completed (returncode : ℕ) (audio : List ℚ) (rate : ℕ)
  | timeout

/-- Result of `HollyPiperVoice.generate`: the value returned to the caller
(`Except` so that a raising path could be told apart from a returning
one), how many subprocess invocations were made, and the cache after. -/
structure PiperOut where
  result : Except String (List ℚ × ℕ)
  calls : ℕ
  fs : CacheFS

/-- The silent fallback buffer of `holly_piper_voice.py`:
`np.zeros(int(22050 * (len(text) / 15)))`. -/
def fallbackSilence (text : String) : List ℚ :=
  List.replicate (PyFloat.estBufLen 22050 text.length 15) 0

/-- `HollyPiperVoice.generate`: cache hit returns the cached samples with
the hard-coded rate 22050; otherwise one subprocess call is made; a
non-zero exit status raises inside the `try`, and the blanket `except`
catches it (as well as the timeout) and returns the silent fallback, so no
path raises and no retry happens. -/
def generate (outcome : PiperOutcome) (writeOk : Bool) (fs : CacheFS)
    (text : String) (_voice : String) (use_cache : Bool) : PiperOut :=
  let key := get_cache_key text
  let cached := if use_cache then load_from_cache fs key else none
  match cached with
  | some audio => ⟨.ok (audio, 22050), 0, fs⟩
  | none =>
      match outcome with
      | .timeout => ⟨.ok (fallbackSilence text, 22050), 1, fs⟩
      | .completed rc audio rate =>
          if rc = 0 then
            let fs2 := if use_cache then save_to_cache writeOk fs key audio rate else fs
            ⟨.ok (audio, rate), 1, fs2⟩
          else ⟨.ok (fallbackSilence text, 22050), 1, fs⟩

end HollyPiperVoice

namespace HollyFishVoiceCloud

/-- `HollyFishVoiceCloud._get_cache_key` in `holly_fish_voice_cloud.py`:
`hashlib.md5(f"{text}:{voice}".encode('utf-8')).hexdigest()`. -/
def get_cache_key (text : String) (voice : String) : String :=
  md5Hex (text ++ ":" ++ voice)

/-- Outcome of the `requests.post(FISH_AUDIO_API_URL, ..., timeout=30)`
call: a response with a status code (and, for status 200, a body that
decodes to samples and a rate), or a timeout / transport exception. -/
inductive HttpOutcome where
  | response (status : ℕ) (audio : List ℚ) (rate : ℕ)
  | timeout

/-- Result of `HollyFishVoiceCloud.generate`: the value returned to the
caller, how many HTTP requests were issued, and the cache after. -/
structure CloudOut where
  result : Except String (List ℚ × ℕ)
  calls : ℕ
  fs : CacheFS

/-- The silent fallback buffer of `holly_fish_voice_cloud.py`:
`np.zeros(int(24000 * (len(text) / 20)))`. -/
def fallbackSilence (text : String) : List ℚ :=
  List.replicate (PyFloat.estBufLen 24000 text.length 20) 0

/-- `HollyFishVoiceCloud.generate`: cache hit returns the cached samples
with the hard-coded rate 24000; with no API key the silent fallback is
returned before any request is made; otherwise one request is issued, a
non-200 status raises inside the `try`, and the blanket `except` catches
it (as well as the timeout) and returns the silent fallback, so no path
raises and no retry happens. -/
def generate (api_key : Option String) (outcome : HttpOutcome)
    (writeOk : Bool) (fs : CacheFS) (text voice : String)
    (use_cache : Bool) : CloudOut :=
  let key := get_cache_key text voice
  let cached := if use_cache then load_from_cache fs key else none
  match cached with
  | some audio => ⟨.ok (audio, 24000), 0, fs⟩
  | none =>
      match api_key with
      | none => ⟨.ok (fallbackSilence text, 24000), 0, fs⟩
      | some _ =>
          match outcome with
          | .timeout => ⟨.ok (fallbackSilence text, 24000), 1, fs⟩
          | .response status audio rate =>
              if status = 200 then
                let fs2 := if use_cache then save_to_cache writeOk fs key audio rate else fs
                ⟨.ok (audio, rate), 1, fs2⟩
              else ⟨.ok (fallbackSilence text, 24000), 1, fs⟩

end HollyFishVoiceCloud

namespace HollyFishVoiceV2

/-- Outcome of `self.engine.inference(...)` in `holly_fish_voice_v2.py`. -/
inductive InferOutcome where
  | ok (audio : List ℝ)
  | failure

/-- On-disk store for this backend's cache, keeping the real-valued
samples abstractly (codec quantization is modelled in the shared cache
model above; only the inference-failure path matters here). -/
abbrev CacheFSR := String → Option (List ℝ × ℕ)

/-- `HollyFishVoice._get_cache_key` in `holly_fish_voice_v2.py`. -/
def get_cache_key (text voice : String) : String :=
  md5Hex (text ++ ":" ++ voice)

/-- `HollyFishVoice._load_from_cache` in `holly_fish_voice_v2.py` (rate
discarded, as in the shared model). -/
def load_from_cache (fs : CacheFSR) (key : String) : Option (List ℝ) :=
  match fs key with
  | some (audio, _) => some audio
  | none => none

/-- The fallback beep of `holly_fish_voice_v2.py`:
`t = np.linspace(0, 0.5, int(24000 * 0.5))` gives 12000 equally spaced
instants `t_i = 0.5 * i / 11999` (endpoints included), and
`audio = np.sin(2 * np.pi * 440 * t) * 0.3`. -/
noncomputable def beep_audio : List ℝ :=
  (List.range 12000).map fun i : ℕ =>
    Real.sin (2 * Real.pi * 440 * ((1 / 2 : ℝ) * (i : ℝ) / 11999)) * 0.3

/-- Result of the v2 `generate`. -/
structure GenOutR where
  audio : List ℝ
  rate : ℕ
  synthesized : Bool
  fs : CacheFSR

/-- `HollyFishVoice.generate` in `holly_fish_voice_v2.py`: cache hit
returns the cached samples at the hard-coded 24000; on inference success
the audio is cached and returned at 24000 Hz; when the inference raises,
the `except` branch returns the 440 Hz fallback beep (without caching it). -/
noncomputable def generate (outcome : InferOutcome) (writeOk : Bool)
    (fs : CacheFSR) (text voice : String) (use_cache : Bool) : GenOutR :=
  let key := get_cache_key text voice
  let cached := if use_cache then load_from_cache fs key else none
  match cached with
  | some audio => ⟨audio, 24000, false, fs⟩
  | none =>
      match outcome with
      | .ok audio =>
          let fs2 := if use_cache && writeOk then Function.update fs key (some (audio, 24000))
            else fs
          ⟨audio, 24000, true, fs2⟩
      | .failure => ⟨beep_audio, 24000, true, fs⟩

end HollyFishVoiceV2

/-- An empty cache directory: no key has a file. -/
def emptyFS : CacheFS := fun _ => none

section Helpers

/-- Splitting at a separator is unique when the separator does not occur in
the left parts: auxiliary list form. -/
theorem first_sep_split {xs ys xs2 ys2 : List Char}
    (hx : ':' ∉ xs) (hx2 : ':' ∉ xs2)
    (h : xs ++ ':' :: ys = xs2 ++ ':' :: ys2) : xs = xs2 ∧ ys = ys2 := by
  induction xs generalizing xs2 with
  | nil =>
    cases xs2 with
    | nil => simpa using h
    | cons c rest =>
      exfalso
      have hc : c = ':' := by
        have := congrArg List.head? h
        simpa using this.symm
      exact hx2 (by simp [hc])
  | cons a rest ih =>
    cases xs2 with
    | nil =>
      exfalso
      have ha : a = ':' := by
        have := congrArg List.head? h
        simpa using this
      exact hx (by simp [ha])
    | cons c rest2 =>
      have hhead : a = c := by
        have := congrArg List.head? h
        simpa using this
      have htail : rest ++ ':' :: ys = rest2 ++ ':' :: ys2 := by
        have := congrArg List.tail h
        simpa using this
      have hrec := ih (fun hm => hx (List.mem_cons_of_mem a hm))
        (fun hm => hx2 (List.mem_cons_of_mem c hm)) htail
      exact ⟨by rw [hhead, hrec.1], hrec.2⟩

/-- The colon-joined content `f"{text}:{voice}"` determines both fields as
long as the voice contains no colon. -/
theorem joined_content_inj {t v t2 v2 : String}
    (hv : ':' ∉ v.data) (hv2 : ':' ∉ v2.data)
    (h : t ++ ":" ++ v = t2 ++ ":" ++ v2) : t = t2 ∧ v = v2 := by
  have hdata : t.data ++ ':' :: v.data = t2.data ++ ':' :: v2.data := by
    have := congrArg String.data h
    simpa [String.data_append] using this
  have hrev : v.data.reverse ++ ':' :: t.data.reverse
      = v2.data.reverse ++ ':' :: t2.data.reverse := by
    have := congrArg List.reverse hdata
    simpa [List.reverse_append] using this
  have hsplit := first_sep_split (by simpa using hv) (by simpa using hv2) hrev
  have ht : t.data = t2.data := List.reverse_injective hsplit.2
  have hvv : v.data = v2.data := List.reverse_injective hsplit.1
  exact ⟨String.ext ht, String.ext hvv⟩

/-- The PCM16 write/read cycle moves a sample in `[-1, 1]` by at most one
quantization step `2^-15`. -/
theorem pcm16_roundtrip_close (x : ℚ) (h : |x| ≤ 1) :
    |pcm16Dequant (pcm16Quant x) - x| ≤ 1 / 32768 := by
  obtain ⟨h1, h2⟩ := abs_le.mp h
  have hr := abs_le.mp (abs_sub_round (x * 32768))
  set r : ℤ := round (x * 32768) with hrdef
  have hrub : (r : ℚ) ≤ x * 32768 + 1 / 2 := by linarith [hr.1, hr.2]
  have hrlb : x * 32768 - 1 / 2 ≤ (r : ℚ) := by linarith [hr.1, hr.2]
  have hub : r ≤ 32768 := by
    have hq : (r : ℚ) < 32769 := by linarith
    have hz : r < (32769 : ℤ) := by exact_mod_cast hq
    omega
  have hlb : (-32768 : ℤ) ≤ r := by
    have hq : (-32769 : ℚ) < (r : ℚ) := by linarith
    have hz : (-32769 : ℤ) < r := by exact_mod_cast hq
    omega
  have hqmin : pcm16Quant x = min 32767 r := by
    unfold pcm16Quant
    rw [← hrdef, max_eq_right (le_min (by norm_num) hlb)]
  have hbound : |((pcm16Quant x : ℤ) : ℚ) - x * 32768| ≤ 1 := by
    rcases le_or_lt r 32767 with hle | hgt
    · rw [hqmin, min_eq_right hle]
      rw [abs_le]
      constructor <;> linarith
    · have hreq : r = 32768 := le_antisymm hub hgt
      rw [hqmin, min_eq_left (by omega)]
      have hx32 : (32767 + 1 / 2 : ℚ) ≤ x * 32768 := by
        rw [hreq] at hrub
        push_cast at hrub
        linarith
      rw [abs_le]
      push_cast
      constructor <;> linarith
  have habs := abs_le.mp hbound
  unfold pcm16Dequant
  rw [abs_le]
  constructor <;> [linarith; linarith]

end Helpers

/-- C1 (amended): every backend's cache key is a deterministic function of
its inputs, and in the fish backends a change of text or of a colon-free
voice changes the digested content `f"{text}:{voice}"`; but the gTTS and
Piper backends digest the text alone, so two requests with the same text
and different voices always share a key. -/
theorem cache_key_deterministic_fish_full_gtts_piper_text_only
    (text voice text2 voice2 : String) :
    (text = text2 → voice = voice2 →
      HollyFishVoice.get_cache_key text voice = HollyFishVoice.get_cache_key text2 voice2
        ∧ HollyFishVoiceCloud.get_cache_key text voice
            = HollyFishVoiceCloud.get_cache_key text2 voice2
        ∧ HollyGTTSVoice.request_key text voice = HollyGTTSVoice.request_key text2 voice2
        ∧ HollyPiperVoice.request_key text voice = HollyPiperVoice.request_key text2 voice2)
      ∧ HollyGTTSVoice.request_key text voice = HollyGTTSVoice.request_key text voice2
      ∧ HollyPiperVoice.request_key text voice = HollyPiperVoice.request_key text voice2
      ∧ (':' ∉ voice.data → ':' ∉ voice2.data → (text, voice) ≠ (text2, voice2) →
          text ++ ":" ++ voice ≠ text2 ++ ":" ++ voice2) := by
  refine ⟨?_, rfl, rfl, ?_⟩
  · rintro rfl rfl
    exact ⟨rfl, rfl, rfl, rfl⟩
  · intro hv hv2 hne heq
    obtain ⟨ht, hvv⟩ := joined_content_inj hv hv2 heq
    exact hne (by rw [ht, hvv])

/-- Witness for the C1 amended theorem at concrete inputs. -/
theorem cache_key_amended_witness :
    HollyGTTSVoice.request_key "hi" "holly" = HollyGTTSVoice.request_key "hi" "amy"
      ∧ "hi" ++ ":" ++ "holly" ≠ "ok" ++ ":" ++ "amy" :=
  ⟨(cache_key_deterministic_fish_full_gtts_piper_text_only "hi" "holly" "ok" "amy").2.1,
    (cache_key_deterministic_fish_full_gtts_piper_text_only "hi" "holly" "ok" "amy").2.2.2
      (by decide) (by decide) (by decide)⟩

/-- C1 is false as stated: in the gTTS and Piper backends two requests
with identical text and different voices get the identical cache key with
certainty, because `generate` never passes the voice to `_get_cache_key`. -/
theorem gtts_piper_key_ignores_voice_cex :
    ("holly" : String) ≠ "amy"
      ∧ HollyGTTSVoice.request_key "hello" "holly" = HollyGTTSVoice.request_key "hello" "amy"
      ∧ HollyPiperVoice.request_key "hello" "holly"
          = HollyPiperVoice.request_key "hello" "amy" :=
  ⟨by decide, rfl, rfl⟩

/-- C2 (amended): when the external synthesis call fails (non-200 HTTP
status or timeout in the cloud backend; non-zero exit status or timeout in
the Piper backend), `generate` does not surface any error: the blanket
`except` logs the failure and returns a silent fallback buffer (24000 Hz
and `int(24000 * (len(text) / 20))` samples for the cloud backend,
22050 Hz and `int(22050 * (len(text) / 15))` samples for Piper).  Exactly
one external call is made, so there is indeed no automatic retry. -/
theorem external_failure_yields_silent_fallback_not_error
    (text voice k : String) (fs : CacheFS) (w : Bool)
    (status : ℕ) (body : List ℚ) (rate : ℕ) (rc : ℕ) (audio2 : List ℚ) (rate2 : ℕ)
    (hstatus : status ≠ 200) (hrc : rc ≠ 0) :
    HollyFishVoiceCloud.generate (some k) (.response status body rate) w fs text voice false
        = ⟨.ok (List.replicate (PyFloat.estBufLen 24000 text.length 20) 0, 24000), 1, fs⟩
      ∧ HollyFishVoiceCloud.generate (some k) .timeout w fs text voice false
          = ⟨.ok (List.replicate (PyFloat.estBufLen 24000 text.length 20) 0, 24000), 1, fs⟩
      ∧ HollyPiperVoice.generate (.completed rc audio2 rate2) w fs text voice false
          = ⟨.ok (List.replicate (PyFloat.estBufLen 22050 text.length 15) 0, 22050), 1, fs⟩
      ∧ HollyPiperVoice.generate .timeout w fs text voice false
          = ⟨.ok (List.replicate (PyFloat.estBufLen 22050 text.length 15) 0, 22050), 1, fs⟩ := by
  refine ⟨?_, rfl, ?_, rfl⟩
  · simp [HollyFishVoiceCloud.generate, HollyFishVoiceCloud.fallbackSilence, hstatus]
  · simp [HollyPiperVoice.generate, HollyPiperVoice.fallbackSilence, hrc]

/-- Witness for the C2 amended theorem at concrete failing calls. -/
theorem external_failure_fallback_witness :
    (500 : ℕ) ≠ 200 ∧ (1 : ℕ) ≠ 0
      ∧ HollyFishVoiceCloud.generate (some "k") (.response 500 [] 44100) true emptyFS
          "hello" "holly" false
        = ⟨.ok (List.replicate (PyFloat.estBufLen 24000 ("hello" : String).length 20) 0,
            24000), 1, emptyFS⟩ :=
  ⟨by decide, by decide,
    (external_failure_yields_silent_fallback_not_error "hello" "holly" "k" emptyFS true
      500 [] 44100 1 [] 0 (by decide) (by decide)).1⟩

set_option maxRecDepth 4000 in
/-- The cloud fallback for a 5-character text has 6000 samples. -/
theorem estBufLen_hello_cloud : PyFloat.estBufLen 24000 ("hello" : String).length 20 = 6000 := by
  decide

set_option maxRecDepth 4000 in
/-- The Piper fallback for a 5-character text has 7350 samples. -/
theorem estBufLen_hello_piper : PyFloat.estBufLen 22050 ("hello" : String).length 15 = 7350 := by
  decide

/-- C2 is false as stated: at a concrete failing call (HTTP status 500 for
the cloud backend, exit status 1 for Piper) `generate` returns an audio
result — a silent buffer — rather than failing with a `SynthesisError`. -/
theorem external_failure_returns_audio_cex :
    (HollyFishVoiceCloud.generate (some "k") (.response 500 [] 44100) true emptyFS
        "hello" "holly" false).result = .ok (List.replicate 6000 0, 24000)
      ∧ (HollyPiperVoice.generate (.completed 1 [] 22050) true emptyFS
          "hello" "holly" false).result = .ok (List.replicate 7350 0, 22050) := by
  constructor
  · show Except.ok (HollyFishVoiceCloud.fallbackSilence "hello", 24000)
        = Except.ok (List.replicate 6000 0, 24000)
    unfold HollyFishVoiceCloud.fallbackSilence
    rw [estBufLen_hello_cloud]
  · show Except.ok (HollyPiperVoice.fallbackSilence "hello", 22050)
        = Except.ok (List.replicate 7350 0, 22050)
    unfold HollyPiperVoice.fallbackSilence
    rw [estBufLen_hello_piper]

/-- C3 (amended): storing samples in `[-1, 1]` with `put` and reading them
back with `get` returns the same number of samples, each within the PCM16
codec precision `2^-15` of what was stored; the stored sample rate is kept
in the file but `get` (`_load_from_cache`) does not return it, and a
cache-hit `generate` reports the fixed rate 24000 whatever rate the entry
was stored with. -/
theorem cache_roundtrip_preserves_samples_but_not_rate
    (fs : CacheFS) (text voice : String) (s : List ℚ) (rate : ℕ) (w : Bool)
    (hs : ∀ x ∈ s, |x| ≤ 1) :
    load_from_cache (save_to_cache true fs (HollyFishVoice.get_cache_key text voice) s rate)
        (HollyFishVoice.get_cache_key text voice)
        = some (s.map fun x => pcm16Dequant (pcm16Quant x))
      ∧ (s.map fun x => pcm16Dequant (pcm16Quant x)).length = s.length
      ∧ (∀ x ∈ s, |pcm16Dequant (pcm16Quant x) - x| ≤ 1 / 32768)
      ∧ save_to_cache true fs (HollyFishVoice.get_cache_key text voice) s rate
          (HollyFishVoice.get_cache_key text voice)
          = some (.wav (s.map pcm16Quant) rate)
      ∧ (HollyFishVoice.generate w
          (save_to_cache true fs (HollyFishVoice.get_cache_key text voice) s rate)
          text voice true).rate = 24000
      ∧ (HollyFishVoice.generate w
          (save_to_cache true fs (HollyFishVoice.get_cache_key text voice) s rate)
          text voice true).synthesized = false := by
  have hsave : save_to_cache true fs (HollyFishVoice.get_cache_key text voice) s rate
      (HollyFishVoice.get_cache_key text voice)
      = some (.wav (s.map pcm16Quant) rate) := by
    simp [save_to_cache, Function.update_same]
  have hload : load_from_cache
      (save_to_cache true fs (HollyFishVoice.get_cache_key text voice) s rate)
      (HollyFishVoice.get_cache_key text voice)
      = some (s.map fun x => pcm16Dequant (pcm16Quant x)) := by
    rw [load_from_cache, hsave]
    simp [List.map_map, Function.comp]
  refine ⟨hload, by simp, fun x hx => pcm16_roundtrip_close x (hs x hx), hsave, ?_, ?_⟩
  · simp [HollyFishVoice.generate, hload]
  · simp [HollyFishVoice.generate, hload]

/-- Witness for the C3 amended theorem at a concrete store. -/
theorem cache_roundtrip_witness :
    (∀ x ∈ [(1 / 2 : ℚ)], |x| ≤ 1)
      ∧ (load_from_cache
            (save_to_cache true emptyFS (HollyFishVoice.get_cache_key "hi" "holly")
              [(1 / 2 : ℚ)] 24000)
            (HollyFishVoice.get_cache_key "hi" "holly")
          = some ([(1 / 2 : ℚ)].map fun x => pcm16Dequant (pcm16Quant x))
        ∧ ([(1 / 2 : ℚ)].map fun x => pcm16Dequant (pcm16Quant x)).length
            = [(1 / 2 : ℚ)].length
        ∧ (∀ x ∈ [(1 / 2 : ℚ)], |pcm16Dequant (pcm16Quant x) - x| ≤ 1 / 32768)
        ∧ save_to_cache true emptyFS (HollyFishVoice.get_cache_key "hi" "holly")
              [(1 / 2 : ℚ)] 24000 (HollyFishVoice.get_cache_key "hi" "holly")
            = some (.wav ([(1 / 2 : ℚ)].map pcm16Quant) 24000)
        ∧ (HollyFishVoice.generate true
            (save_to_cache true emptyFS (HollyFishVoice.get_cache_key "hi" "holly")
              [(1 / 2 : ℚ)] 24000) "hi" "holly" true).rate = 24000
        ∧ (HollyFishVoice.generate true
            (save_to_cache true emptyFS (HollyFishVoice.get_cache_key "hi" "holly")
              [(1 / 2 : ℚ)] 24000) "hi" "holly" true).synthesized = false) :=
  ⟨by norm_num [abs_le],
    cache_roundtrip_preserves_samples_but_not_rate emptyFS "hi" "holly"
      [(1 / 2 : ℚ)] 24000 true (by norm_num [abs_le])⟩

/-- C3 is false as stated: an entry stored with sample rate 48000 is
retrieved with `get` returning no rate at all, and the cache-hit
`generate` built on it reports 24000, not the stored 48000. -/
theorem cache_roundtrip_rate_cex :
    (HollyFishVoice.generate true
        (save_to_cache true emptyFS (HollyFishVoice.get_cache_key "hello" "holly")
          [(0 : ℚ)] 48000)
        "hello" "holly" true).rate = 24000
      ∧ (24000 : ℕ) ≠ 48000 := by
  constructor
  · have hload : load_from_cache
        (save_to_cache true emptyFS (HollyFishVoice.get_cache_key "hello" "holly")
          [(0 : ℚ)] 48000)
        (HollyFishVoice.get_cache_key "hello" "holly")
        = some [pcm16Dequant (pcm16Quant 0)] := by
      simp [load_from_cache, save_to_cache, Function.update_same]
    simp [HollyFishVoice.generate, hload]
  · decide

/-- C4: a corrupt cache file at the request's key is reported as a miss by
`_load_from_cache` (the bare `except` swallows the decode failure), and
`generate` then re-synthesizes and returns normally — the model of
`generate` is a total function, so no exception escapes. -/
theorem corrupt_cache_entry_is_miss_and_regenerated
    (text voice : String) (fs : CacheFS) (w : Bool)
    (h : fs (HollyFishVoice.get_cache_key text voice) = some .garbage) :
    load_from_cache fs (HollyFishVoice.get_cache_key text voice) = none
      ∧ (HollyFishVoice.generate w fs text voice true).synthesized = true
      ∧ (HollyFishVoice.generate w fs text voice true).audio
          = List.replicate (PyFloat.estBufLen 24000 text.length 20) 0
      ∧ (HollyFishVoice.generate w fs text voice true).rate = 24000 := by
  have hload : load_from_cache fs (HollyFishVoice.get_cache_key text voice) = none := by
    rw [load_from_cache, h]
  refine ⟨hload, ?_, ?_, ?_⟩ <;> simp [HollyFishVoice.generate, hload]

/-- Witness for the C4 theorem with a concrete corrupted store. -/
theorem corrupt_cache_witness :
    Function.update emptyFS (HollyFishVoice.get_cache_key "hi" "holly") (some .garbage)
        (HollyFishVoice.get_cache_key "hi" "holly") = some .garbage
      ∧ (load_from_cache
            (Function.update emptyFS (HollyFishVoice.get_cache_key "hi" "holly")
              (some .garbage))
            (HollyFishVoice.get_cache_key "hi" "holly") = none
        ∧ (HollyFishVoice.generate true
            (Function.update emptyFS (HollyFishVoice.get_cache_key "hi" "holly")
              (some .garbage)) "hi" "holly" true).synthesized = true
        ∧ (HollyFishVoice.generate true
            (Function.update emptyFS (HollyFishVoice.get_cache_key "hi" "holly")
              (some .garbage)) "hi" "holly" true).audio
            = List.replicate (PyFloat.estBufLen 24000 ("hi" : String).length 20) 0
        ∧ (HollyFishVoice.generate true
            (Function.update emptyFS (HollyFishVoice.get_cache_key "hi" "holly")
              (some .garbage)) "hi" "holly" true).rate = 24000) :=
  ⟨Function.update_same _ _ _,
    corrupt_cache_entry_is_miss_and_regenerated "hi" "holly"
      (Function.update emptyFS (HollyFishVoice.get_cache_key "hi" "holly") (some .garbage))
      true (Function.update_same _ _ _)⟩

/-- C5 (amended): with no API credential configured and `use_cache=false`,
the cloud backend's `generate` returns — without raising and without
issuing any HTTP request — an all-zero buffer at 24000 Hz whose sample
count is `int(24000 * (len(text) / 20))` as evaluated in IEEE-754 double
precision; this is within one sample of `24000 * len(text) / 20` but not
always equal to it. -/
theorem cloud_no_credentials_silent_fallback
    (text voice : String) (fs : CacheFS) (outcome : HollyFishVoiceCloud.HttpOutcome)
    (w : Bool) (_h : text ≠ "") :
    HollyFishVoiceCloud.generate none outcome w fs text voice false
      = ⟨.ok (List.replicate (PyFloat.estBufLen 24000 text.length 20) 0, 24000), 0, fs⟩ :=
  rfl

/-- Witness for the C5 amended theorem at the spec's own example input. -/
theorem cloud_no_credentials_witness :
    ("hello" : String) ≠ ""
      ∧ HollyFishVoiceCloud.generate none .timeout true emptyFS "hello" "holly" false
        = ⟨.ok (List.replicate (PyFloat.estBufLen 24000 ("hello" : String).length 20) 0,
            24000), 0, emptyFS⟩
      ∧ PyFloat.estBufLen 24000 ("hello" : String).length 20 = 1200 * 5 :=
  ⟨by decide,
    cloud_no_credentials_silent_fallback "hello" "holly" emptyFS .timeout true (by decide),
    by rw [estBufLen_hello_cloud]⟩

set_option maxRecDepth 4000 in
/-- The cloud fallback for a 23-character text has 27599 samples, one
fewer than `int(24000 * 23 / 20) = 27600`. -/
theorem estBufLen_23_cloud :
    PyFloat.estBufLen 24000 ("aaaaaaaaaaaaaaaaaaaaaaa" : String).length 20 = 27599 := by
  decide

/-- C5 is false as stated: for a 23-character text the code sizes the
silent buffer as `int(24000 * (23 / 20))`, which double rounding makes
27599, while the claim's formula `int(24000 * 23 / 20)` gives 27600. -/
theorem cloud_fallback_length_cex :
    ("aaaaaaaaaaaaaaaaaaaaaaa" : String).length = 23
      ∧ (HollyFishVoiceCloud.generate none .timeout true emptyFS
          "aaaaaaaaaaaaaaaaaaaaaaa" "holly" false).result
        = .ok (List.replicate 27599 0, 24000)
      ∧ 24000 * 23 / 20 = 27600
      ∧ (27599 : ℕ) ≠ 27600 := by
  refine ⟨by decide, ?_, by decide, by decide⟩
  show Except.ok (HollyFishVoiceCloud.fallbackSilence "aaaaaaaaaaaaaaaaaaaaaaa", 24000) = _
  unfold HollyFishVoiceCloud.fallbackSilence
  rw [estBufLen_23_cloud]

/-- An empty cache store for the v2 backend. -/
def emptyFSR : HollyFishVoiceV2.CacheFSR := fun _ => none

/-- C6: when the inference engine call of the real local-model backend
fails (and the cache has no entry for the request), `generate` returns the
deterministic fallback beep — 12000 samples (0.5 s at 24000 Hz) of a
440 Hz sinusoid at amplitude 0.3 — which contains a non-zero sample
and is therefore not silence. -/
theorem inference_failure_returns_audible_beep
    (text voice : String) (fs : HollyFishVoiceV2.CacheFSR) (w : Bool)
    (h : fs (HollyFishVoiceV2.get_cache_key text voice) = none) :
    (HollyFishVoiceV2.generate .failure w fs text voice true).audio
        = HollyFishVoiceV2.beep_audio
      ∧ (HollyFishVoiceV2.generate .failure w fs text voice true).rate = 24000
      ∧ (HollyFishVoiceV2.generate .failure w fs text voice true).synthesized = true
      ∧ HollyFishVoiceV2.beep_audio.length = 12000
      ∧ (∃ x ∈ HollyFishVoiceV2.beep_audio, x ≠ 0) := by
  have hload : HollyFishVoiceV2.load_from_cache fs
      (HollyFishVoiceV2.get_cache_key text voice) = none := by
    rw [HollyFishVoiceV2.load_from_cache, h]
  refine ⟨?_, ?_, ?_, ?_, ?_⟩
  · simp [HollyFishVoiceV2.generate, hload]
  · simp [HollyFishVoiceV2.generate, hload]
  · simp [HollyFishVoiceV2.generate, hload]
  · unfold HollyFishVoiceV2.beep_audio
    rw [List.length_map, List.length_range]
  · have hmem : Real.sin (2 * Real.pi * 440 * ((1 / 2 : ℝ) * ((1 : ℕ) : ℝ) / 11999)) * 0.3
        ∈ HollyFishVoiceV2.beep_audio := by
      unfold HollyFishVoiceV2.beep_audio
      exact List.mem_map_of_mem _ (List.mem_range.mpr (by norm_num))
    refine ⟨_, hmem, ?_⟩
    have harg : 2 * Real.pi * 440 * ((1 / 2 : ℝ) * ((1 : ℕ) : ℝ) / 11999)
        = Real.pi * (440 / 11999) := by
      push_cast
      ring
    rw [harg]
    have h1 : 0 < Real.pi * (440 / 11999) := by positivity
    have h2 : Real.pi * (440 / 11999) < Real.pi := by
      have hlt := mul_lt_mul_of_pos_left (show (440 : ℝ) / 11999 < 1 by norm_num) Real.pi_pos
      simpa using hlt
    exact mul_ne_zero (ne_of_gt (Real.sin_pos_of_pos_of_lt_pi h1 h2)) (by norm_num)

/-- Witness for the C6 theorem on the empty cache. -/
theorem inference_failure_beep_witness :
    emptyFSR (HollyFishVoiceV2.get_cache_key "hi" "holly") = none
      ∧ (HollyFishVoiceV2.generate .failure true emptyFSR "hi" "holly" true).audio
          = HollyFishVoiceV2.beep_audio
      ∧ HollyFishVoiceV2.beep_audio.length = 12000 :=
  ⟨rfl, (inference_failure_returns_audible_beep "hi" "holly" emptyFSR true rfl).1,
    (inference_failure_returns_audible_beep "hi" "holly" emptyFSR true rfl).2.2.2.1⟩

/-- C7: when the cache write of a freshly synthesized result fails, the
failure is swallowed (the cache directory is left unchanged) and
`generate` still returns exactly the audio and rate it would have returned
had the write succeeded. -/
theorem cache_write_failure_never_fails_request
    (text voice : String) (fs : CacheFS)
    (h : load_from_cache fs (HollyFishVoice.get_cache_key text voice) = none) :
    (HollyFishVoice.generate false fs text voice true).audio
        = List.replicate (PyFloat.estBufLen 24000 text.length 20) 0
      ∧ (HollyFishVoice.generate false fs text voice true).rate = 24000
      ∧ (HollyFishVoice.generate false fs text voice true).synthesized = true
      ∧ (HollyFishVoice.generate false fs text voice true).fs = fs
      ∧ (HollyFishVoice.generate false fs text voice true).audio
          = (HollyFishVoice.generate true fs text voice true).audio
      ∧ (HollyFishVoice.generate false fs text voice true).rate
          = (HollyFishVoice.generate true fs text voice true).rate := by
  refine ⟨?_, ?_, ?_, ?_, ?_, ?_⟩ <;> simp [HollyFishVoice.generate, h, save_to_cache]

/-- Witness for the C7 theorem on the empty cache. -/
theorem cache_write_failure_witness :
    load_from_cache emptyFS (HollyFishVoice.get_cache_key "hi" "holly") = none
      ∧ (HollyFishVoice.generate false emptyFS "hi" "holly" true).audio
          = List.replicate (PyFloat.estBufLen 24000 ("hi" : String).length 20) 0
      ∧ (HollyFishVoice.generate false emptyFS "hi" "holly" true).fs = emptyFS :=
  ⟨rfl, (cache_write_failure_never_fails_request "hi" "holly" emptyFS rfl).1,
    (cache_write_failure_never_fails_request "hi" "holly" emptyFS rfl).2.2.2.1⟩

/-- C8: two consecutive `generate(text, voice, use_cache=true)` calls with
a succeeding cache write serve the second call from the cache entry left
by the first: the second call does not run the synthesis path, returns
exactly what `_load_from_cache` finds in that entry, and leaves the cache
unchanged. -/
theorem second_generate_hits_cache_no_resynthesis
    (text voice : String) (fs : CacheFS) :
    (HollyFishVoice.generate true (HollyFishVoice.generate true fs text voice true).fs
        text voice true).synthesized = false
      ∧ load_from_cache (HollyFishVoice.generate true fs text voice true).fs
          (HollyFishVoice.get_cache_key text voice)
          = some (HollyFishVoice.generate true
              (HollyFishVoice.generate true fs text voice true).fs text voice true).audio
      ∧ (HollyFishVoice.generate true (HollyFishVoice.generate true fs text voice true).fs
          text voice true).fs = (HollyFishVoice.generate true fs text voice true).fs
      ∧ (HollyFishVoice.generate true (HollyFishVoice.generate true fs text voice true).fs
          text voice true).rate = 24000 := by
  cases hload : load_from_cache fs (HollyFishVoice.get_cache_key text voice) with
  | some a =>
      refine ⟨?_, ?_, ?_, ?_⟩ <;> simp [HollyFishVoice.generate, hload]
  | none =>
      have hsave : load_from_cache
          (save_to_cache true fs (HollyFishVoice.get_cache_key text voice)
            (List.replicate (PyFloat.estBufLen 24000 text.length 20) 0) 24000)
          (HollyFishVoice.get_cache_key text voice)
          = some ((List.replicate (PyFloat.estBufLen 24000 text.length 20) (0 : ℚ)).map
              fun x => pcm16Dequant (pcm16Quant x)) := by
        simp [load_from_cache, save_to_cache, Function.update_same, List.map_map,
          Function.comp]
      refine ⟨?_, ?_, ?_, ?_⟩ <;> simp [HollyFishVoice.generate, hload, hsave]

/-- C9: `clear_cache` removes every `*.wav` entry, is idempotent, succeeds
on an already-empty directory, and afterwards `get_cache_stats` reports
zero entries and zero bytes. -/
theorem clear_cache_idempotent_and_stats_zero (d : HollyFishVoice.DirListing) :
    HollyFishVoice.clear_cache (HollyFishVoice.clear_cache d) = HollyFishVoice.clear_cache d
      ∧ HollyFishVoice.clear_cache ([] : HollyFishVoice.DirListing) = []
      ∧ HollyFishVoice.glob_wav (HollyFishVoice.clear_cache d) = []
      ∧ HollyFishVoice.get_cache_stats (HollyFishVoice.clear_cache d) = (0, 0) := by
  have hglob : HollyFishVoice.glob_wav (HollyFishVoice.clear_cache d) = [] := by
    simp [HollyFishVoice.glob_wav, HollyFishVoice.clear_cache, List.filter_filter]
  refine ⟨?_, rfl, hglob, ?_⟩
  · simp [HollyFishVoice.clear_cache, List.filter_filter]
  · simp [HollyFishVoice.get_cache_stats, hglob]

/-- C10: `get_cache_stats` counts exactly the entries whose name ends in
`.wav` (and sums exactly their sizes), and `clear_cache` deletes exactly
those entries: every non-`.wav` file survives `clear_cache` unchanged and
contributes neither to the entry count nor to the byte total. -/
theorem stats_and_clear_touch_exactly_wav_files (d : HollyFishVoice.DirListing) :
    (HollyFishVoice.get_cache_stats d).1
        = (d.filter fun f => HollyFishVoice.wav_name f.1).length
      ∧ (HollyFishVoice.get_cache_stats d).2
          = ((d.filter fun f => HollyFishVoice.wav_name f.1).map Prod.snd).sum
      ∧ (∀ f ∈ d, HollyFishVoice.wav_name f.1 = false → f ∈ HollyFishVoice.clear_cache d)
      ∧ (∀ f ∈ d, HollyFishVoice.wav_name f.1 = true → f ∉ HollyFishVoice.clear_cache d)
      ∧ (∀ f ∈ HollyFishVoice.clear_cache d, f ∈ d ∧ HollyFishVoice.wav_name f.1 = false)
      ∧ (∀ (name : String) (sz : ℕ), HollyFishVoice.wav_name name = false →
          HollyFishVoice.get_cache_stats ((name, sz) :: d) = HollyFishVoice.get_cache_stats d
            ∧ HollyFishVoice.clear_cache ((name, sz) :: d)
                = (name, sz) :: HollyFishVoice.clear_cache d) := by
  refine ⟨rfl, rfl, ?_, ?_, ?_, ?_⟩
  · intro f hf hneg
    exact List.mem_filter.mpr ⟨hf, by simp [hneg]⟩
  · intro f _ hpos hmem
    have hm := (List.mem_filter.mp hmem).2
    simp [hpos] at hm
  · intro f hf
    have hm := List.mem_filter.mp hf
    exact ⟨hm.1, by simpa using hm.2⟩
  · intro name sz hneg
    constructor
    · simp [HollyFishVoice.get_cache_stats, HollyFishVoice.glob_wav, hneg]
    · simp [HollyFishVoice.clear_cache, hneg]

/-- Witness for the C10 theorem on a directory holding one WAV file and
one unrelated file. -/
theorem stats_clear_wav_witness :
    (("notes.txt", 3) : String × ℕ)
        ∈ HollyFishVoice.clear_cache [("a.wav", 5), ("notes.txt", 3)]
      ∧ (("a.wav", 5) : String × ℕ)
          ∉ HollyFishVoice.clear_cache [("a.wav", 5), ("notes.txt", 3)]
      ∧ HollyFishVoice.get_cache_stats [("a.wav", 5), ("notes.txt", 3)] = (1, 5) :=
  ⟨(stats_and_clear_touch_exactly_wav_files _).2.2.1 _ (by decide) (by decide),
    (stats_and_clear_touch_exactly_wav_files _).2.2.2.1 _ (by decide) (by decide),
    by decide⟩
